import Mathlib

/-!
Shallow embedding of the PE-portfolio repository (JLemieux66/PE), covering:

* CompanyPEInvestment.normalize_status  (src/models/database_models_v2.py)
* import_a16z_portfolio                 (scripts/setup/import_a16z_portfolio.py)
* parse_location                        (populate_geographic_fields.py)
* categorize_company_size and categorize_investment_stage
                                        (populate_categorization_fields.py)
* search_company_crunchbase and get_company_details_crunchbase
                                        (crunchbase_helpers.py)
* verify_admin, update_company, delete_company (backend/api_v2.py)

Python strings are modelled as Lean String, nullable columns as Option String,
and the Python string operations used by the code (split, strip, lower,
substring membership, int()) are defined below over String.data so that every
definition evaluates inside the kernel.
-/

/-! ## Python string primitives -/

/-- Python truthiness of an optional string: None and the empty string are
falsy, every other string is truthy. -/
def pyTruthy : Option String → Bool
  | none => false
  | some s => !(s == "")

/-- Strip ASCII whitespace from both ends of a character list
(model of Python str.strip with no argument). -/
def pyStripList (l : List Char) : List Char :=
  ((l.dropWhile Char.isWhitespace).reverse.dropWhile Char.isWhitespace).reverse

/-- Model of Python str.strip(). -/
def pyStrip (s : String) : String :=
  String.mk (pyStripList s.data)

/-- Split a character list at every occurrence of the separator character,
keeping empty chunks (model of Python str.split with an explicit separator). -/
def pySplitChar (sep : Char) : List Char → List (List Char)
  | [] => [[]]
  | c :: cs =>
    let r := pySplitChar sep cs
    if c = sep then
      [] :: r
    else
      match r with
      | [] => [[c]]
      | h :: t => (c :: h) :: t

/-- Model of Python s.split(sep) for a one-character separator. -/
def pySplit (sep : Char) (s : String) : List String :=
  (pySplitChar sep s.data).map String.mk

/-- Model of Python str.lower() (ASCII). -/
def pyLower (s : String) : String :=
  String.mk (s.data.map Char.toLower)

/-- Does the pattern occur as a contiguous sublist? -/
def listHasSub (l p : List Char) : Bool :=
  (List.range (l.length + 1)).any (fun i => p.isPrefixOf (l.drop i))

/-- Model of the Python membership test on strings: pyInStr sub s is
Python's sub in s. -/
def pyInStr (sub s : String) : Bool :=
  listHasSub s.data sub.data

/-- Digits of a Python integer literal after the first digit: every underscore
must sit between two digits (model of the CPython int() digit grammar). -/
def pyDigitsRest : List Char → Option (List Char)
  | [] => some []
  | '_' :: [] => none
  | '_' :: c :: cs =>
    if c.isDigit then (pyDigitsRest cs).map (fun l => c :: l) else none
  | c :: cs =>
    if c.isDigit then (pyDigitsRest cs).map (fun l => c :: l) else none

/-- Numeric value of a digit list. -/
def digitsToNat (l : List Char) : Nat :=
  l.foldl (fun a c => 10 * a + (c.toNat - '0'.toNat)) 0

/-- A non-empty digit part starting with a digit, underscores allowed between
digits, returning its value. -/
def pyDigitPart : List Char → Option Nat
  | [] => none
  | c :: cs =>
    if c.isDigit then (pyDigitsRest cs).map (fun rest => digitsToNat (c :: rest)) else none

/-- Model of Python int(s) on an ASCII string: surrounding whitespace is
stripped, an optional sign is allowed, and the rest must be a valid digit
part; None models a raised ValueError. -/
def int_of_string (s : String) : Option Int :=
  match pyStripList s.data with
  | '+' :: rest => (pyDigitPart rest).map (fun n => (n : Int))
  | '-' :: rest => (pyDigitPart rest).map (fun n => -(n : Int))
  | l => (pyDigitPart l).map (fun n => (n : Int))

/-! ## Data model (src/models/database_models_v2.py)

Companies and investments carry the columns of the v2 schema that the
embedded code reads or writes; datetime bookkeeping columns are omitted. -/

/-- A row of the v2 companies table. -/
structure Company where
  id : Nat
  name : String
  description : Option String := none
  website : Option String := none
  linkedin_url : Option String := none
  revenue_range : Option String := none
  employee_count : Option String := none
  country : Option String := none
  state_region : Option String := none
  city : Option String := none
  company_size_category : Option String := none
  revenue_tier : Option String := none
  industry_category : Option String := none
  is_public : Bool := false
  ipo_ticker : Option String := none
  ipo_exchange : Option String := none
deriving DecidableEq, Repr

/-- A row of the v2 company_pe_investments junction table; the company field
models the ORM relationship used by normalize_status. -/
structure CompanyPEInvestment where
  company_id : Nat
  pe_firm_id : Nat
  raw_status : Option String := none
  computed_status : Option String := none
  investment_year : Option String := none
  investment_stage : Option String := none
  exit_type : Option String := none
  exit_info : Option String := none
  exit_year : Option String := none
  source_url : Option String := none
  sector_page : Option String := none
  data_area : Option String := none
  data_fund : Option String := none
  company : Option Company := none
deriving DecidableEq, Repr

/-- The guard of rule 1 of normalize_status: Python
self.company and self.company.is_public. -/
def companyIsPublic (inv : CompanyPEInvestment) : Bool :=
  match inv.company with
  | some c => c.is_public
  | none => false

/-- The rule-3 substring test of normalize_status: Python
any(word in status_lower for word in ['active', 'current', 'portfolio']). -/
def statusHasActiveWord (s : String) : Bool :=
  let status_lower := pyLower s
  pyInStr "active" status_lower || pyInStr "current" status_lower ||
    pyInStr "portfolio" status_lower

/-- CompanyPEInvestment.normalize_status as a state transformer on the row,
translated rule for rule from database_models_v2.py lines 157-185. -/
def CompanyPEInvestment.normalize_status (inv : CompanyPEInvestment) : CompanyPEInvestment :=
  if companyIsPublic inv then
    let inv1 := { inv with computed_status := some "Exit" }
    if !(pyTruthy inv.exit_type) then { inv1 with exit_type := some "IPO" } else inv1
  else if pyTruthy inv.exit_type && !(inv.exit_type == some "None") then
    { inv with computed_status := some "Exit" }
  else if pyTruthy inv.raw_status && statusHasActiveWord (inv.raw_status.getD "") then
    { inv with computed_status := some "Active" }
  else
    { inv with computed_status := some "Exit" }

/-- The status rule exactly as the specification states it (for comparison
with the code): is_public wins, then any non-null exit_type, then the
case-insensitive substring test on raw_status, else Exit. -/
def claimed_status_rule (raw_status exit_type : Option String) (is_public : Bool) : String :=
  if is_public then "Exit"
  else if !(exit_type == none) then "Exit"
  else if (match raw_status with | some s => statusHasActiveWord s | none => false) then "Active"
  else "Exit"

/-- The exit_type test that the code actually performs in rule 2: the value
must be non-null, non-empty and not the literal string None. -/
def exitTypeSet : Option String → Bool
  | none => false
  | some s => !(s == "") && !(s == "None")

/-- The status rule amended to match the code: rule 2 fires only for a
non-null, non-empty exit_type different from the literal string None. -/
def amended_status_rule (raw_status exit_type : Option String) (is_public : Bool) : String :=
  if is_public then "Exit"
  else if exitTypeSet exit_type then "Exit"
  else if (match raw_status with | some s => statusHasActiveWord s | none => false) then "Active"
  else "Exit"

/-- Investment used to compare the code with the spec sentence: exit_type is
the non-null string None, raw_status is Active, the company is not public. -/
def invExitTypeNone : CompanyPEInvestment :=
  { company_id := 1, pe_firm_id := 1, raw_status := some "Active",
    exit_type := some "None", company := none }

/-- First example of the claim: raw Portfolio Company, no exit, not public. -/
def invPortfolio : CompanyPEInvestment :=
  { company_id := 1, pe_firm_id := 1, raw_status := some "Portfolio Company",
    exit_type := none, company := some { id := 1, name := "A" } }

/-- Second example of the claim: raw Active, no exit, public company. -/
def invPublic : CompanyPEInvestment :=
  { company_id := 2, pe_firm_id := 1, raw_status := some "Active",
    exit_type := none,
    company := some { id := 2, name := "B", is_public := true } }

/-! ## parse_location (populate_geographic_fields.py) -/

/-- US state names and abbreviations (populate_geographic_fields.py). -/
def US_STATES : List String :=
  ["Alabama", "Alaska", "Arizona", "Arkansas", "California", "Colorado", "Connecticut",
   "Delaware", "Florida", "Georgia", "Hawaii", "Idaho", "Illinois", "Indiana", "Iowa",
   "Kansas", "Kentucky", "Louisiana", "Maine", "Maryland", "Massachusetts", "Michigan",
   "Minnesota", "Mississippi", "Missouri", "Montana", "Nebraska", "Nevada", "New Hampshire",
   "New Jersey", "New Mexico", "New York", "North Carolina", "North Dakota", "Ohio",
   "Oklahoma", "Oregon", "Pennsylvania", "Rhode Island", "South Carolina", "South Dakota",
   "Tennessee", "Texas", "Utah", "Vermont", "Virginia", "Washington", "West Virginia",
   "Wisconsin", "Wyoming", "District of Columbia",
   "AL", "AK", "AZ", "AR", "CA", "CO", "CT", "DE", "FL", "GA", "HI", "ID", "IL", "IN",
   "IA", "KS", "KY", "LA", "ME", "MD", "MA", "MI", "MN", "MS", "MO", "MT", "NE", "NV",
   "NH", "NJ", "NM", "NY", "NC", "ND", "OH", "OK", "OR", "PA", "RI", "SC", "SD", "TN",
   "TX", "UT", "VT", "VA", "WA", "WV", "WI", "WY", "DC"]

/-- Canadian province names and abbreviations. -/
def CANADIAN_PROVINCES : List String :=
  ["Alberta", "British Columbia", "Manitoba", "New Brunswick", "Newfoundland and Labrador",
   "Northwest Territories", "Nova Scotia", "Nunavut", "Ontario", "Prince Edward Island",
   "Quebec", "Saskatchewan", "Yukon",
   "AB", "BC", "MB", "NB", "NL", "NT", "NS", "NU", "ON", "PE", "QC", "SK", "YT"]

/-- UK constituent-country names and aliases. -/
def UK_NAMES : List String :=
  ["England", "Scotland", "Wales", "Northern Ireland", "United Kingdom", "UK"]

/-- parse_location from populate_geographic_fields.py: split the headquarters
string on commas, strip each part, and infer (city, state_region, country). -/
def parse_location (headquarters : String) : Option String × Option String × Option String :=
  if headquarters == "" || pyStrip headquarters == "" then (none, none, none)
  else
    let parts := (pySplit ',' headquarters).map pyStrip
    match parts with
    | [] => (none, none, none)
    | [only] => (some only, none, none)
    | [city, region] =>
      if US_STATES.contains region then (some city, some region, some "United States")
      else if CANADIAN_PROVINCES.contains region then (some city, some region, some "Canada")
      else if UK_NAMES.contains region then (some city, some region, some "United Kingdom")
      else (some city, none, some region)
    | city :: sr :: r :: rs =>
      let country_part := List.getLastD (r :: rs) ""
      if !(sr == "") && US_STATES.contains sr then
        (some city, some sr, some "United States")
      else if !(sr == "") && CANADIAN_PROVINCES.contains sr then
        (some city, some sr, some "Canada")
      else if UK_NAMES.contains country_part then
        (some city, some sr, some "United Kingdom")
      else
        (some city, some sr, some country_part)

/-! ## Categorization (populate_categorization_fields.py) -/

/-- Employee-count code mappings from crunchbase_helpers.py. -/
def EMPLOYEE_RANGES : List (String × String) :=
  [("c_00001_00010", "1-10"),
   ("c_00011_00050", "11-50"),
   ("c_00051_00100", "51-100"),
   ("c_00101_00250", "101-250"),
   ("c_00251_00500", "251-500"),
   ("c_00501_01000", "501-1,000"),
   ("c_01001_05000", "1,001-5,000"),
   ("c_05001_10000", "5,001-10,000"),
   ("c_10001_max", "10,001+")]

/-- The size_map dictionary inside categorize_company_size. -/
def size_map : List (String × String) :=
  [("c_00001_00010", "Startup"),
   ("c_00011_00050", "Startup"),
   ("c_00051_00100", "Small"),
   ("c_00101_00250", "Small"),
   ("c_00251_00500", "Medium"),
   ("c_00501_01000", "Medium"),
   ("c_01001_05000", "Large"),
   ("c_05001_10000", "Enterprise"),
   ("c_10001_max", "Enterprise")]

/-- categorize_company_size from populate_categorization_fields.py: falsy
input gives None, otherwise size_map.get(employee_code). -/
def categorize_company_size (employee_code : Option String) : Option String :=
  if !(pyTruthy employee_code) then none
  else size_map.lookup (employee_code.getD "")

/-- categorize_investment_stage from populate_categorization_fields.py:
falsy or whitespace-only input gives None, a non-numeric year gives None
(the caught ValueError), otherwise the Recent / Mature / Legacy bands. -/
def categorize_investment_stage (investment_year : Option String) : Option String :=
  if !(pyTruthy investment_year) || pyStrip (investment_year.getD "") == "" then none
  else
    match int_of_string (investment_year.getD "") with
    | none => none
    | some year =>
      if year ≥ 2020 then some "Recent"
      else if year ≥ 2015 then some "Mature"
      else some "Legacy"

/-! ## Crunchbase helpers (crunchbase_helpers.py)

The two client functions are embedded over an abstract outcome of the
requests.get call: the request may raise, or return a response with a status
code whose .json() either raises (modelled by none) or yields parsed data. -/

/-- Outcome of requests.get followed by response.json(): raised models any
exception from the request, response carries the HTTP status code and the
parsed body (none when .json() itself raises). -/
inductive HttpResult (α : Type) where
  | raised : HttpResult α
  | response : Nat → Option α → HttpResult α
deriving DecidableEq, Repr

/-- The identifier object of an autocomplete entity. -/
structure CBIdentifier where
  permalink : Option String := none
deriving DecidableEq, Repr

/-- An entry of the entities array of the autocomplete response. -/
structure CBEntity where
  identifier : Option CBIdentifier := none
deriving DecidableEq, Repr

/-- Parsed body of the autocomplete response: data.get with entities and a
default of the empty list. -/
structure CBSearchBody where
  entities : List CBEntity := []
deriving DecidableEq, Repr

/-- One location identifier of an organization. -/
structure CBLocation where
  location_type : String
  value : Option String := none
deriving DecidableEq, Repr

/-- The founded_on object of an organization. -/
structure CBFoundedOn where
  value : Option String := none
deriving DecidableEq, Repr

/-- The properties object of an organization entity. -/
structure CBProperties where
  location_identifiers : List CBLocation := []
  founded_on : Option CBFoundedOn := none
  short_description : Option String := none
  revenue_range : Option String := none
  num_employees_enum : Option String := none
deriving DecidableEq, Repr

/-- Parsed body of the entity-details response; properties defaults to an
empty object via data.get. -/
structure CBDetailsBody where
  properties : Option CBProperties := none
deriving DecidableEq, Repr

/-- The dictionary returned by get_company_details_crunchbase on the success
path; the Python failure paths return the empty dict, modelled as none. -/
structure CBDetails where
  headquarters : String
  founded_year : String
  description : String
  revenue_range : String
  employee_count : String
deriving DecidableEq, Repr

/-- search_company_crunchbase from crunchbase_helpers.py: non-200 responses
return the empty list, any exception is caught and returns the empty list,
otherwise the permalink of the first entity (with empty-string defaults). -/
def search_company_crunchbase : HttpResult CBSearchBody → List String
  | HttpResult.raised => []
  | HttpResult.response status body =>
    if !(status == 200) then []
    else
      match body with
      | none => []
      | some data =>
        match data.entities with
        | [] => []
        | e :: _ =>
          [(match e.identifier with
            | none => ""
            | some ident => ident.permalink.getD "")]

/-- The headquarters string assembled from location_identifiers: the value of
the first city-typed and the first region-typed location, joined as in the
Python f-string when both are truthy. -/
def cbHeadquarters (locs : List CBLocation) : String :=
  match locs with
  | [] => ""
  | _ :: _ =>
    let city : Option String :=
      match locs.find? (fun l => l.location_type == "city") with
      | none => some ""
      | some l => l.value
    let region : Option String :=
      match locs.find? (fun l => l.location_type == "region") with
      | none => some ""
      | some l => l.value
    if pyTruthy city && pyTruthy region then city.getD "" ++ ", " ++ region.getD ""
    else if pyTruthy city then city.getD ""
    else if pyTruthy region then region.getD ""
    else ""

/-- The founded year extracted from founded_on: the first four characters of
the value when it has at least four. -/
def cbFoundedYear : Option CBFoundedOn → String
  | none => ""
  | some f =>
    let v := f.value.getD ""
    if !(v == "") && 4 ≤ v.data.length then String.mk (v.data.take 4) else ""

/-- get_company_details_crunchbase from crunchbase_helpers.py: non-200
responses and caught exceptions return the empty dict (none), otherwise the
five-field dictionary built from properties. -/
def get_company_details_crunchbase : HttpResult CBDetailsBody → Option CBDetails
  | HttpResult.raised => none
  | HttpResult.response status body =>
    if !(status == 200) then none
    else
      match body with
      | none => none
      | some data =>
        let props := data.properties.getD {}
        some { headquarters := cbHeadquarters props.location_identifiers,
               founded_year := cbFoundedYear props.founded_on,
               description := props.short_description.getD "",
               revenue_range := props.revenue_range.getD "",
               employee_count := props.num_employees_enum.getD "" }

/-! ## Admin endpoints (backend/api_v2.py) -/

/-- ADMIN_API_KEY: the environment variable with its hardcoded default. -/
def ADMIN_API_KEY (env_value : Option String) : String :=
  env_value.getD "your-secret-admin-key-here"

/-- verify_admin from backend/api_v2.py: a falsy or unequal X-Admin-Key
header raises HTTP 403, otherwise the dependency returns True. -/
def verify_admin (admin_api_key : String) (x_admin_key : Option String) : Except Nat Bool :=
  if !(pyTruthy x_admin_key) || !(x_admin_key.getD "" == admin_api_key) then
    Except.error 403
  else
    Except.ok true

/-- Body of a PUT /api/companies/id request; a none field was not provided
and is excluded by exclude_unset. -/
structure CompanyUpdate where
  name : Option String := none
  website : Option String := none
  linkedin_url : Option String := none
  description : Option String := none
  industry_category : Option String := none
  is_public : Option Bool := none
deriving DecidableEq, Repr

/-- Apply the provided fields of a CompanyUpdate to a company row, as the
setattr loop of update_company does. -/
def applyCompanyUpdate (u : CompanyUpdate) (c : Company) : Company :=
  { c with
    name := u.name.getD c.name,
    website := match u.website with | none => c.website | some v => some v,
    linkedin_url := match u.linkedin_url with | none => c.linkedin_url | some v => some v,
    description := match u.description with | none => c.description | some v => some v,
    industry_category := match u.industry_category with | none => c.industry_category | some v => some v,
    is_public := u.is_public.getD c.is_public }

/-- Replace the first element satisfying the predicate (the row the ORM query
.first() returned and the handler mutated). -/
def updateFirst (p : Company → Bool) (f : Company → Company) : List Company → List Company
  | [] => []
  | c :: cs => if p c then f c :: cs else c :: updateFirst p f cs

/-- PUT /api/companies/company_id from backend/api_v2.py: the verify_admin
dependency runs first; then the company is looked up (404 when absent) and
the provided fields are applied. The second component is the table after the
request. -/
def update_company (admin_api_key : String) (x_admin_key : Option String)
    (company_id : Nat) (company_update : CompanyUpdate) (companies : List Company) :
    Except Nat String × List Company :=
  match verify_admin admin_api_key x_admin_key with
  | Except.error code => (Except.error code, companies)
  | Except.ok _ =>
    match companies.find? (fun c => c.id == company_id) with
    | none => (Except.error 404, companies)
    | some _ =>
      (Except.ok "Company updated successfully",
       updateFirst (fun c => c.id == company_id) (applyCompanyUpdate company_update) companies)

/-- DELETE /api/companies/company_id from backend/api_v2.py: verify_admin
runs first; then the company is looked up (404 when absent) and deleted. -/
def delete_company (admin_api_key : String) (x_admin_key : Option String)
    (company_id : Nat) (companies : List Company) :
    Except Nat String × List Company :=
  match verify_admin admin_api_key x_admin_key with
  | Except.error code => (Except.error code, companies)
  | Except.ok _ =>
    match companies.find? (fun c => c.id == company_id) with
    | none => (Except.error 404, companies)
    | some _ =>
      (Except.ok "deleted successfully",
       companies.filter (fun c => !(c.id == company_id)))

/-! ## import_a16z_portfolio (scripts/setup/import_a16z_portfolio.py)

The script talks to the v2 models. The SQLAlchemy declarative constructor
raises TypeError at the first keyword argument that is not an attribute of
the model class, so each create step first checks the keyword names the
script passes against the attributes of the v2 model (its columns and
relationships); the error value is the offending keyword. -/

/-- A row of the pe_firms table (the columns the embedded code uses). -/
structure PEFirmRow where
  id : Nat
  name : String
deriving DecidableEq, Repr

/-- Attributes of the v2 PEFirm model (columns and relationship). -/
def pe_firm_attributes : List String :=
  ["id", "name", "total_companies", "current_portfolio_count",
   "exited_portfolio_count", "last_scraped", "extraction_time_minutes",
   "investments"]

/-- Attributes of the v2 Company model (columns, relationships, property). -/
def company_attributes : List String :=
  ["id", "name", "description", "website", "linkedin_url", "revenue_range",
   "employee_count", "predicted_revenue", "country", "state_region", "city",
   "company_size_category", "revenue_tier", "industry_category", "is_public",
   "ipo_ticker", "ipo_date", "ipo_exchange", "created_at", "updated_at",
   "investments", "tags", "computed_status"]

/-- Attributes of the v2 CompanyPEInvestment model. -/
def investment_attributes : List String :=
  ["id", "company_id", "pe_firm_id", "raw_status", "computed_status",
   "investment_year", "investment_stage", "exit_type", "exit_info",
   "exit_year", "source_url", "sector_page", "data_area", "data_fund",
   "last_scraped", "created_at", "updated_at", "company", "pe_firm"]

/-- The SQLAlchemy declarative constructor check: TypeError (carrying the
keyword) at the first keyword argument that is not a model attribute. -/
def kwargsCheck (attributes : List String) (kwargs : List String) : Except String Unit :=
  match kwargs.find? (fun k => !(attributes.contains k)) with
  | some k => Except.error k
  | none => Except.ok ()

/-- One record of the scraped a16z JSON; absent keys are none and the
dict.get defaults of the script are applied where it reads them. -/
structure A16ZRecord where
  name : String
  website : Option String := none
  linkedin_url : Option String := none
  sector : Option String := none
  status : Option String := none
  stage : Option String := none
  exit_details : Option String := none
deriving DecidableEq, Repr

/-- Database state seen by the import script. -/
structure ImportDB where
  firms : List PEFirmRow := []
  companies : List Company := []
  investments : List CompanyPEInvestment := []
  next_company_id : Nat := 1
  next_firm_id : Nat := 1
deriving DecidableEq, Repr

/-- Get-or-create of the Andreessen Horowitz PEFirm row; the create path
passes name, website, created_at and updated_at keywords to PEFirm. -/
def getOrCreateA16Z (db : ImportDB) : Except String (Nat × ImportDB) :=
  match db.firms.find? (fun f => f.name == "Andreessen Horowitz") with
  | some f => Except.ok (f.id, db)
  | none =>
    match kwargsCheck pe_firm_attributes ["name", "website", "created_at", "updated_at"] with
    | Except.error k => Except.error k
    | Except.ok _ =>
      Except.ok (db.next_firm_id,
        { db with
          firms := db.firms ++ [{ id := db.next_firm_id, name := "Andreessen Horowitz" }],
          next_firm_id := db.next_firm_id + 1 })

/-- The two field updates the script applies to an existing company: the
website is overwritten whenever the scraped one is non-empty, the LinkedIn
URL only when the scraped one is non-empty and the stored one is falsy. -/
def mergeExistingCompany (website linkedin_url : String) (c : Company) : Company :=
  let c1 := if !(website == "") then { c with website := some website } else c
  if !(linkedin_url == "") && !(pyTruthy c.linkedin_url) then
    { c1 with linkedin_url := some linkedin_url }
  else c1

/-- Create-if-absent of the investment row for (company_id, pe_firm_id); the
create path passes company_id, pe_firm_id, investment_date, exit_date,
status, notes, created_at and updated_at keywords to CompanyPEInvestment. -/
def addInvestment (pe_firm_id : Nat) (db : ImportDB) (company_id : Nat)
    (status exit_details : String) : Except String ImportDB :=
  match db.investments.find?
      (fun inv => inv.company_id == company_id && inv.pe_firm_id == pe_firm_id) with
  | some _ => Except.ok db
  | none =>
    match kwargsCheck investment_attributes
        ["company_id", "pe_firm_id", "investment_date", "exit_date",
         "status", "notes", "created_at", "updated_at"] with
    | Except.error k => Except.error k
    | Except.ok _ =>
      Except.ok { db with
        investments := db.investments ++
          [{ company_id := company_id, pe_firm_id := pe_firm_id }] }

/-- Processing of one scraped record: look the company up by name; update the
existing row or create a new one (the create path passes name, website,
linkedin_url, industry, created_at and updated_at keywords to Company); then
ensure the investment relationship. -/
def process_a16z_company (pe_firm_id : Nat) (db : ImportDB) (r : A16ZRecord) :
    Except String ImportDB :=
  let website := pyStrip (r.website.getD "")
  let linkedin_url := pyStrip (r.linkedin_url.getD "")
  let status := r.status.getD "Active"
  let exit_details := r.exit_details.getD ""
  match db.companies.find? (fun c => c.name == r.name) with
  | some existing_company =>
    let db1 := { db with
      companies := updateFirst (fun c => c.name == r.name)
        (mergeExistingCompany website linkedin_url) db.companies }
    addInvestment pe_firm_id db1 existing_company.id status exit_details
  | none =>
    match kwargsCheck company_attributes
        ["name", "website", "linkedin_url", "industry", "created_at", "updated_at"] with
    | Except.error k => Except.error k
    | Except.ok _ =>
      let new_company : Company :=
        { id := db.next_company_id, name := r.name,
          website := some website, linkedin_url := some linkedin_url }
      let db1 := { db with
        companies := db.companies ++ [new_company],
        next_company_id := db.next_company_id + 1 }
      addInvestment pe_firm_id db1 new_company.id status exit_details

/-- The per-company loop of the import; a raised TypeError aborts the run
(the script rolls back and re-raises). -/
def importA16ZLoop (pe_firm_id : Nat) (db : ImportDB) :
    List A16ZRecord → Except String ImportDB
  | [] => Except.ok db
  | r :: rest =>
    match process_a16z_company pe_firm_id db r with
    | Except.error k => Except.error k
    | Except.ok db1 => importA16ZLoop pe_firm_id db1 rest

/-- import_a16z_portfolio from scripts/setup/import_a16z_portfolio.py,
as a function of the initial database state and the scraped records. -/
def import_a16z_portfolio (db : ImportDB) (companies_data : List A16ZRecord) :
    Except String ImportDB :=
  match getOrCreateA16Z db with
  | Except.error k => Except.error k
  | Except.ok (pe_firm_id, db1) => importA16ZLoop pe_firm_id db1 companies_data

/-! ## Concrete states used when evaluating the import -/

/-- A scraped record for a company that is not yet in the database. -/
def recAirbnb : A16ZRecord :=
  { name := "Airbnb", website := some "https://airbnb.com",
    sector := some "Consumer", status := some "Active" }

/-- The empty database. -/
def emptyImportDB : ImportDB := {}

/-- Database holding only the a16z firm row. -/
def dbFirmOnly : ImportDB :=
  { firms := [{ id := 1, name := "Andreessen Horowitz" }], next_firm_id := 2 }

/-- Database holding the firm and the Airbnb company, no investment row. -/
def dbFirmAndCompany : ImportDB :=
  { dbFirmOnly with
    companies := [{ id := 1, name := "Airbnb" }], next_company_id := 2 }

/-- An existing company row whose website is already populated. -/
def oldCompany : Company :=
  { id := 1, name := "Airbnb", website := some "https://old.example",
    description := some "stays" }

/-- Database where company and investment already exist, so a re-import of
the record takes the update path end to end. -/
def dbWithInvestment : ImportDB :=
  { firms := [{ id := 1, name := "Andreessen Horowitz" }],
    companies := [oldCompany],
    investments := [{ company_id := 1, pe_firm_id := 1 }],
    next_company_id := 2, next_firm_id := 2 }

/-- The same scraped record with a different, non-empty website. -/
def recNewWebsite : A16ZRecord :=
  { recAirbnb with website := some "https://new.example" }

/-- The database the update path produces for recNewWebsite. -/
def processedDB : ImportDB :=
  (process_a16z_company 1 dbWithInvestment recNewWebsite).toOption.getD emptyImportDB

/-! # Theorems -/

/-- The rule-2 test of normalize_status computes exitTypeSet. -/
theorem rule2_eq_exitTypeSet (et : Option String) :
    (pyTruthy et && !(et == some "None")) = exitTypeSet et := by
  cases et with
  | none => rfl
  | some s => rfl

/-- The rule-3 test of normalize_status computes the substring check of the
specification (an empty raw_status contains none of the three words). -/
theorem rule3_eq_activeWord (rs : Option String) :
    (pyTruthy rs && statusHasActiveWord (rs.getD "")) =
      (match rs with | some s => statusHasActiveWord s | none => false) := by
  cases rs with
  | none => rfl
  | some s =>
    by_cases h : s = ""
    · subst h; decide
    · simp [pyTruthy, h]

/-- Claim C1 (counterexample): with raw_status Active, the non-null
exit_type None (the literal string) and a non-public company, the claimed
rule gives Exit but normalize_status computes Active. -/
theorem normalize_status_claim_counterexample :
    ¬ invExitTypeNone.exit_type = none ∧
    companyIsPublic invExitTypeNone = false ∧
    claimed_status_rule invExitTypeNone.raw_status invExitTypeNone.exit_type false = "Exit" ∧
    (invExitTypeNone.normalize_status).computed_status = some "Active" := by
  refine ⟨by decide, rfl, rfl, ?_⟩
  decide

/-- Claim C1 (amended): computed_status follows the first-match-wins priority
with rule 2 firing only for an exit_type that is non-null, non-empty and not
the literal string None; the two example inputs of the claim behave as
stated. -/
theorem normalize_status_amended :
    (∀ inv : CompanyPEInvestment,
       (inv.normalize_status).computed_status =
         some (amended_status_rule inv.raw_status inv.exit_type (companyIsPublic inv))) ∧
    (invPortfolio.normalize_status).computed_status = some "Active" ∧
    (invPublic.normalize_status).computed_status = some "Exit" := by
  refine ⟨?_, by decide, by decide⟩
  intro inv
  unfold CompanyPEInvestment.normalize_status amended_status_rule
  rw [rule2_eq_exitTypeSet, rule3_eq_activeWord]
  cases h1 : companyIsPublic inv with
  | true =>
    cases h4 : pyTruthy inv.exit_type <;> simp [h1, h4]
  | false =>
    cases h2 : exitTypeSet inv.exit_type <;>
      cases h3 : (match inv.raw_status with | some s => statusHasActiveWord s | none => false) <;>
        simp [h1, h2, h3]

/-- Claim C9: when the company is public and exit_type is unset (falsy),
normalize_status sets exit_type to IPO and computed_status to Exit; on every
input, every field other than computed_status and exit_type is unchanged, and
exit_type changes only in that one case. -/
theorem normalize_status_frame (inv : CompanyPEInvestment) :
    ((inv.normalize_status).exit_type =
       if companyIsPublic inv && !(pyTruthy inv.exit_type) then some "IPO"
       else inv.exit_type) ∧
    (companyIsPublic inv = true → (inv.normalize_status).computed_status = some "Exit") ∧
    (inv.normalize_status).raw_status = inv.raw_status ∧
    (inv.normalize_status).investment_year = inv.investment_year ∧
    (inv.normalize_status).investment_stage = inv.investment_stage ∧
    (inv.normalize_status).exit_info = inv.exit_info ∧
    (inv.normalize_status).exit_year = inv.exit_year ∧
    (inv.normalize_status).source_url = inv.source_url ∧
    (inv.normalize_status).sector_page = inv.sector_page ∧
    (inv.normalize_status).data_area = inv.data_area ∧
    (inv.normalize_status).data_fund = inv.data_fund ∧
    (inv.normalize_status).company = inv.company ∧
    (inv.normalize_status).company_id = inv.company_id ∧
    (inv.normalize_status).pe_firm_id = inv.pe_firm_id := by
  unfold CompanyPEInvestment.normalize_status
  cases h1 : companyIsPublic inv with
  | true =>
    cases h4 : pyTruthy inv.exit_type <;> simp [h1, h4]
  | false =>
    cases h2 : (pyTruthy inv.exit_type && !(inv.exit_type == some "None")) <;>
      cases h3 : (pyTruthy inv.raw_status && statusHasActiveWord (inv.raw_status.getD "")) <;>
        simp [h1, h2, h3]

/-- Claim C9 (witness): on the public-company example with unset exit_type,
normalize_status writes Exit and IPO. -/
theorem normalize_status_frame_witness :
    (invPublic.normalize_status).computed_status = some "Exit" ∧
    (invPublic.normalize_status).exit_type = some "IPO" := by
  refine ⟨(normalize_status_frame invPublic).2.1 (by decide), ?_⟩
  exact ((normalize_status_frame invPublic).1).trans (by decide)

/-- Splitting a list that does not contain the separator yields the single
original chunk. -/
theorem pySplitChar_no_sep (sep : Char) (l : List Char)
    (h : ∀ c ∈ l, ¬ c = sep) : pySplitChar sep l = [l] := by
  induction l with
  | nil => rfl
  | cons c cs ih =>
    have hc : ¬ c = sep := h c (List.mem_cons_self c cs)
    have ih2 := ih (fun x hx => h x (List.mem_cons_of_mem c hx))
    simp only [pySplitChar, ih2]
    simp [hc]

/-- When stripping leaves nothing, every character was whitespace. -/
theorem all_whitespace_of_strip_nil (l : List Char) (h : pyStripList l = []) :
    ∀ c ∈ l, c.isWhitespace := by
  unfold pyStripList at h
  have h1 : (l.dropWhile Char.isWhitespace).reverse.dropWhile Char.isWhitespace = [] :=
    List.reverse_eq_nil_iff.mp h
  have h2 : ∀ c ∈ (l.dropWhile Char.isWhitespace).reverse, Char.isWhitespace c :=
    List.dropWhile_eq_nil_iff.mp h1
  intro c hc
  have hsplit : l = l.takeWhile Char.isWhitespace ++ l.dropWhile Char.isWhitespace :=
    (List.takeWhile_append_dropWhile Char.isWhitespace l).symm
  rw [hsplit] at hc
  rcases List.mem_append.mp hc with hc1 | hc2
  · exact List.mem_takeWhile_imp hc1
  · exact h2 c (List.mem_reverse.mpr hc2)

/-- A whitespace-only headquarters string contains no comma, so it splits
into a single stripped-empty part. -/
theorem strip_nil_no_comma (s : String) (h : pyStripList s.data = []) :
    ∀ c ∈ s.data, ¬ c = ',' := by
  intro c hc heq
  have hw := all_whitespace_of_strip_nil s.data h c hc
  rw [heq] at hw
  exact absurd hw (by decide)

/-- Claim C4: on a headquarters string splitting into exactly two stripped
parts, parse_location checks the second part against the US-state set, then
the Canadian-province set, then the UK set, and otherwise treats it as the
country. -/
theorem parse_location_two_part_spec (s city region : String)
    (h : (pySplit ',' s).map pyStrip = [city, region]) :
    parse_location s =
      (if US_STATES.contains region then (some city, some region, some "United States")
       else if CANADIAN_PROVINCES.contains region then (some city, some region, some "Canada")
       else if UK_NAMES.contains region then (some city, some region, some "United Kingdom")
       else (some city, none, some region)) := by
  have hb1 : (s == "") = false := by
    cases hb : (s == "") with
    | false => rfl
    | true =>
      have hs : s = "" := beq_iff_eq.mp hb
      subst hs
      simp [pySplit, pySplitChar] at h
  have hb2 : (pyStrip s == "") = false := by
    cases hb : (pyStrip s == "") with
    | false => rfl
    | true =>
      have hs : pyStrip s = "" := beq_iff_eq.mp hb
      have hnil : pyStripList s.data = [] := congrArg String.data hs
      have hsplit := pySplitChar_no_sep ',' s.data (strip_nil_no_comma s hnil)
      rw [pySplit, hsplit] at h
      simp at h
  unfold parse_location
  rw [hb1, hb2]
  simp only [Bool.or_self, Bool.false_eq_true, if_false]
  rw [h]

/-- Claim C4 (witness): the example of the claim. -/
theorem parse_location_two_part_witness :
    parse_location "San Francisco, California" =
      (some "San Francisco", some "California", some "United States") := by
  exact (parse_location_two_part_spec "San Francisco, California" "San Francisco" "California"
    (by decide)).trans (by decide)

/-- Claim C10: a headquarters string without a comma parses to
(stripped string, None, None) when its stripped form is non-empty — even when
the string is a country name — and to (None, None, None) when the string is
empty or whitespace-only. -/
theorem parse_location_no_comma_spec (s : String) (hnc : ¬ ',' ∈ s.data) :
    (¬ pyStrip s = "" → parse_location s = (some (pyStrip s), none, none)) ∧
    (pyStrip s = "" → parse_location s = (none, none, none)) := by
  have hsplit : pySplitChar ',' s.data = [s.data] :=
    pySplitChar_no_sep ',' s.data (fun c hc heq => hnc (heq ▸ hc))
  constructor
  · intro hne
    have hb2 : (pyStrip s == "") = false := by
      cases hb : (pyStrip s == "") with
      | false => rfl
      | true => exact absurd (beq_iff_eq.mp hb) hne
    have hb1 : (s == "") = false := by
      cases hb : (s == "") with
      | false => rfl
      | true =>
        have hs : s = "" := beq_iff_eq.mp hb
        subst hs
        exact absurd rfl hne
    unfold parse_location
    rw [hb1, hb2]
    simp only [Bool.or_self, Bool.false_eq_true, if_false]
    simp only [pySplit, hsplit, List.map_cons, List.map_nil]
  · intro he
    have hb2 : (pyStrip s == "") = true := beq_iff_eq.mpr he
    unfold parse_location
    rw [hb2]
    simp

/-- Claim C10 (witness): a lone country name is recorded as the city. -/
theorem parse_location_no_comma_witness :
    parse_location "Germany" = (some "Germany", none, none) := by
  exact ((parse_location_no_comma_spec "Germany" (by decide)).1 (by decide)).trans (by decide)

/-- A string whose stripped form is empty does not parse as an integer. -/
theorem int_of_string_of_strip_nil (s : String) (h : pyStripList s.data = []) :
    int_of_string s = none := by
  unfold int_of_string
  rw [h]
  rfl

/-- Claim C5: categorize_investment_stage maps a value parsing as a year to
its Recent, Mature or Legacy band, and None plus empty and non-numeric
inputs to None. -/
theorem categorize_investment_stage_spec (o : Option String) :
    categorize_investment_stage o =
      (match o with
       | none => none
       | some s =>
         match int_of_string s with
         | none => none
         | some year =>
           some (if year ≥ 2020 then "Recent"
                 else if year ≥ 2015 then "Mature"
                 else "Legacy")) := by
  cases o with
  | none => rfl
  | some s =>
    unfold categorize_investment_stage
    simp only [Option.getD_some, pyTruthy]
    by_cases h2 : pyStrip s = ""
    · have hb2 : (pyStrip s == "") = true := beq_iff_eq.mpr h2
      have hint : int_of_string s = none :=
        int_of_string_of_strip_nil s (congrArg String.data h2)
      rw [hb2, hint]
      simp
    · by_cases h1 : s = ""
      · subst h1
        exact absurd rfl h2
      · have hb1 : (s == "") = false := by
          cases hb : (s == "") with
          | false => rfl
          | true => exact absurd (beq_iff_eq.mp hb) h1
        have hb2 : (pyStrip s == "") = false := by
          cases hb : (pyStrip s == "") with
          | false => rfl
          | true => exact absurd (beq_iff_eq.mp hb) h2
        simp only [hb1, hb2, Bool.not_false, Bool.or_false, Bool.not_true,
          Bool.false_eq_true, if_false]
        cases hint : int_of_string s with
        | none => rfl
        | some year =>
          by_cases hy1 : year ≥ 2020
          · simp [hy1]
          · by_cases hy2 : year ≥ 2015 <;> simp [hy1, hy2]

/-- Lookup in an association list misses every key that is not in the key
column. -/
theorem lookup_eq_none_of_not_mem_keys (l : List (String × String)) (a : String)
    (h : ¬ a ∈ l.map Prod.fst) : l.lookup a = none := by
  induction l with
  | nil => rfl
  | cons p t ih =>
    obtain ⟨k, v⟩ := p
    have hk : ¬ a = k := fun he => h (by simp [he])
    have ht : ¬ a ∈ t.map Prod.fst := fun hm => h (by simp [hm])
    have hak : (a == k) = false := by
      cases hb : (a == k) with
      | false => rfl
      | true => exact absurd (beq_iff_eq.mp hb) hk
    simp [List.lookup, hak, ih ht]

/-- Claim C6: on each of the nine codes of EMPLOYEE_RANGES,
categorize_company_size returns one of the five size categories; on every
code outside that set, and on None, it returns None. -/
theorem categorize_company_size_spec :
    (∀ code : String, code ∈ EMPLOYEE_RANGES.map Prod.fst →
       categorize_company_size (some code) ∈
         [some "Startup", some "Small", some "Medium", some "Large", some "Enterprise"]) ∧
    (∀ code : String, ¬ code ∈ EMPLOYEE_RANGES.map Prod.fst →
       categorize_company_size (some code) = none) ∧
    categorize_company_size none = none := by
  refine ⟨?_, ?_, rfl⟩
  · intro code hmem
    simp only [EMPLOYEE_RANGES, List.map_cons, List.map_nil, List.mem_cons,
      List.not_mem_nil, or_false] at hmem
    rcases hmem with h|h|h|h|h|h|h|h|h <;> subst h <;> decide
  · intro code hmem
    have hkeys : size_map.map Prod.fst = EMPLOYEE_RANGES.map Prod.fst := by decide
    have hlook : size_map.lookup code = none :=
      lookup_eq_none_of_not_mem_keys size_map code (fun hm => hmem (hkeys ▸ hm))
    by_cases h0 : code = ""
    · subst h0; rfl
    · have hb : (code == "") = false := by
        cases hb : (code == "") with
        | false => rfl
        | true => exact absurd (beq_iff_eq.mp hb) h0
      unfold categorize_company_size
      simp [pyTruthy, hb, hlook]

/-- Claim C6 (witness): the first code maps into the five categories. -/
theorem categorize_company_size_witness :
    categorize_company_size (some "c_00001_00010") ∈
      [some "Startup", some "Small", some "Medium", some "Large", some "Enterprise"] :=
  categorize_company_size_spec.1 "c_00001_00010" (by decide)

/-- Claim C7: for both Crunchbase client functions, a raised exception, a
non-200 response and a failing .json() all return exactly the value a
not-found result produces: the empty list for search (also what an empty
entities array yields) and the empty dict for the details fetch. -/
theorem crunchbase_failure_is_empty :
    search_company_crunchbase HttpResult.raised = [] ∧
    (∀ (st : Nat) (body : Option CBSearchBody), ¬ st = 200 →
       search_company_crunchbase (HttpResult.response st body) = []) ∧
    search_company_crunchbase (HttpResult.response 200 none) = [] ∧
    search_company_crunchbase (HttpResult.response 200 (some {})) = [] ∧
    get_company_details_crunchbase HttpResult.raised = none ∧
    (∀ (st : Nat) (body : Option CBDetailsBody), ¬ st = 200 →
       get_company_details_crunchbase (HttpResult.response st body) = none) ∧
    get_company_details_crunchbase (HttpResult.response 200 none) = none := by
  refine ⟨rfl, ?_, rfl, rfl, rfl, ?_, rfl⟩
  · intro st body hst
    have hb : (st == 200) = false := by
      cases hb : (st == 200) with
      | false => rfl
      | true => exact absurd (beq_iff_eq.mp hb) hst
    simp [search_company_crunchbase, hb]
  · intro st body hst
    have hb : (st == 200) = false := by
      cases hb : (st == 200) with
      | false => rfl
      | true => exact absurd (beq_iff_eq.mp hb) hst
    simp [get_company_details_crunchbase, hb]

/-- Claim C7 (witness): a 404 search and a 500 details fetch are not
distinguishable from no data. -/
theorem crunchbase_failure_is_empty_witness :
    search_company_crunchbase (HttpResult.response 404 none) = [] ∧
    get_company_details_crunchbase (HttpResult.response 500 none) = none :=
  ⟨crunchbase_failure_is_empty.2.1 404 none (by decide),
   crunchbase_failure_is_empty.2.2.2.2.2.1 500 none (by decide)⟩

/-- A missing or unequal X-Admin-Key header makes verify_admin raise 403. -/
theorem verify_admin_missing_or_unequal (key : String) (x : Option String)
    (h : x = none ∨ ∃ k, x = some k ∧ ¬ k = key) :
    verify_admin key x = Except.error 403 := by
  rcases h with h | ⟨k, hk, hne⟩
  · subst h; rfl
  · subst hk
    have hb : (k == key) = false := by
      cases hb : (k == key) with
      | false => rfl
      | true => exact absurd (beq_iff_eq.mp hb) hne
    unfold verify_admin
    simp [pyTruthy, hb]

/-- When verify_admin does not raise 403, the header was present and equal to
the configured key. -/
theorem verify_admin_passed_header (key : String) (x : Option String)
    (h : ¬ verify_admin key x = Except.error 403) : x = some key := by
  unfold verify_admin at h
  cases x with
  | none => exact absurd rfl h
  | some s =>
    by_cases hs : s = ""
    · subst hs; exact absurd rfl h
    · have hb : (s == "") = false := by
        cases hb : (s == "") with
        | false => rfl
        | true => exact absurd (beq_iff_eq.mp hb) hs
      simp only [pyTruthy, Option.getD_some, hb, Bool.not_false] at h
      by_cases hk : (s == key) = true
      · exact congrArg some (beq_iff_eq.mp hk)
      · have hk2 : (s == key) = false := by
          cases hb2 : (s == key) with
          | false => rfl
          | true => exact absurd hb2 hk
        rw [hk2] at h
        simp at h

/-- Claim C8: both admin write endpoints run only when the X-Admin-Key header
is present and equal to ADMIN_API_KEY; a missing or unequal key yields
HTTP 403 with the companies table unchanged. -/
theorem admin_write_endpoints_gated (admin_key : String) (x_admin_key : Option String)
    (company_id : Nat) (upd : CompanyUpdate) (companies : List Company) :
    ((x_admin_key = none ∨ ∃ k, x_admin_key = some k ∧ ¬ k = admin_key) →
       update_company admin_key x_admin_key company_id upd companies =
         (Except.error 403, companies) ∧
       delete_company admin_key x_admin_key company_id companies =
         (Except.error 403, companies)) ∧
    (∀ (r : Except Nat String) (companies2 : List Company),
       update_company admin_key x_admin_key company_id upd companies = (r, companies2) →
       ¬ r = Except.error 403 → x_admin_key = some admin_key) ∧
    (∀ (r : Except Nat String) (companies2 : List Company),
       delete_company admin_key x_admin_key company_id companies = (r, companies2) →
       ¬ r = Except.error 403 → x_admin_key = some admin_key) := by
  refine ⟨?_, ?_, ?_⟩
  · intro h
    have hv := verify_admin_missing_or_unequal admin_key x_admin_key h
    unfold update_company delete_company
    rw [hv]
    exact ⟨rfl, rfl⟩
  · intro r companies2 heq hr
    apply verify_admin_passed_header admin_key x_admin_key
    intro hv
    unfold update_company at heq
    rw [hv] at heq
    have h3 : (Except.error 403 : Except Nat String) = r := congrArg Prod.fst heq
    exact hr h3.symm
  · intro r companies2 heq hr
    apply verify_admin_passed_header admin_key x_admin_key
    intro hv
    unfold delete_company at heq
    rw [hv] at heq
    have h3 : (Except.error 403 : Except Nat String) = r := congrArg Prod.fst heq
    exact hr h3.symm

/-- Claim C8 (witness): a missing key and a wrong key are both rejected with
403 and leave the table as it was. -/
theorem admin_write_endpoints_gated_witness :
    update_company "your-secret-admin-key-here" none 1 {} [] =
      (Except.error 403, []) ∧
    delete_company "your-secret-admin-key-here" (some "wrong-key") 1 [] =
      (Except.error 403, []) :=
  ⟨((admin_write_endpoints_gated "your-secret-admin-key-here" none 1 {} []).1
      (Or.inl rfl)).1,
   ((admin_write_endpoints_gated "your-secret-admin-key-here" (some "wrong-key") 1 {} []).1
      (Or.inr ⟨"wrong-key", rfl, by decide⟩)).2⟩

/-- Claim C2: the import raises TypeError before any new row is committed.
On an empty database the PEFirm constructor rejects the website keyword; with
the firm present the Company constructor rejects industry; with firm and
company present the CompanyPEInvestment constructor rejects
investment_date. -/
theorem import_crashes_on_new_rows :
    import_a16z_portfolio emptyImportDB [recAirbnb] = Except.error "website" ∧
    import_a16z_portfolio dbFirmOnly [recAirbnb] = Except.error "industry" ∧
    import_a16z_portfolio dbFirmAndCompany [recAirbnb] = Except.error "investment_date" :=
  ⟨rfl, rfl, rfl⟩

/-- Claim C3 (counterexample): re-importing a record for an existing company
whose website column is already populated overwrites that website with the
scraped one. -/
theorem import_overwrites_populated_website :
    oldCompany.website = some "https://old.example" ∧
    (import_a16z_portfolio dbWithInvestment [recNewWebsite]).map
        (fun d => d.companies.map (fun c => c.website)) =
      Except.ok [some "https://new.example"] :=
  ⟨rfl, rfl⟩

/-- A successful addInvestment never touches the companies table. -/
theorem addInvestment_companies (pe_firm_id : Nat) (db : ImportDB) (cid : Nat)
    (status exit_details : String) (db2 : ImportDB)
    (h : addInvestment pe_firm_id db cid status exit_details = Except.ok db2) :
    db2.companies = db.companies := by
  unfold addInvestment at h
  cases hf : db.investments.find?
      (fun inv => inv.company_id == cid && inv.pe_firm_id == pe_firm_id) with
  | some v =>
    rw [hf] at h
    cases h
    rfl
  | none =>
    rw [hf] at h
    cases hk : kwargsCheck investment_attributes
        ["company_id", "pe_firm_id", "investment_date", "exit_date",
         "status", "notes", "created_at", "updated_at"] with
    | error k =>
      rw [hk] at h
      cases h
    | ok u =>
      rw [hk] at h
      cases h
      rfl

/-- On the update branch, processing a record reduces to addInvestment over
the database whose matching company row went through mergeExistingCompany. -/
theorem process_update_branch (pe_firm_id : Nat) (db : ImportDB) (r : A16ZRecord)
    (c : Company)
    (hfind : db.companies.find? (fun x => x.name == r.name) = some c) :
    process_a16z_company pe_firm_id db r =
      addInvestment pe_firm_id
        { db with companies := (updateFirst (fun x => x.name == r.name)
            (mergeExistingCompany (pyStrip (r.website.getD ""))
              (pyStrip (r.linkedin_url.getD ""))) db.companies) }
        c.id (r.status.getD "Active") (r.exit_details.getD "") := by
  unfold process_a16z_company
  rw [hfind]

/-- Claim C3 (amended): when the company exists, a completed import step
rewrites exactly the looked-up row through mergeExistingCompany, which
overwrites website whenever the scraped website is non-empty, fills
linkedin_url only when the scraped one is non-empty and the stored one is
falsy, and leaves every other column unchanged. -/
theorem import_update_merge_semantics :
    (∀ (pe_firm_id : Nat) (db : ImportDB) (r : A16ZRecord) (c : Company) (db2 : ImportDB),
       db.companies.find? (fun x => x.name == r.name) = some c →
       process_a16z_company pe_firm_id db r = Except.ok db2 →
       db2.companies = updateFirst (fun x => x.name == r.name)
         (mergeExistingCompany (pyStrip (r.website.getD ""))
           (pyStrip (r.linkedin_url.getD ""))) db.companies) ∧
    (∀ (website linkedin_url : String) (c : Company),
       (mergeExistingCompany website linkedin_url c).website =
         (if !(website == "") then some website else c.website) ∧
       (mergeExistingCompany website linkedin_url c).linkedin_url =
         (if !(linkedin_url == "") && !(pyTruthy c.linkedin_url) then some linkedin_url
          else c.linkedin_url) ∧
       (mergeExistingCompany website linkedin_url c).id = c.id ∧
       (mergeExistingCompany website linkedin_url c).name = c.name ∧
       (mergeExistingCompany website linkedin_url c).description = c.description ∧
       (mergeExistingCompany website linkedin_url c).revenue_range = c.revenue_range ∧
       (mergeExistingCompany website linkedin_url c).employee_count = c.employee_count ∧
       (mergeExistingCompany website linkedin_url c).country = c.country ∧
       (mergeExistingCompany website linkedin_url c).state_region = c.state_region ∧
       (mergeExistingCompany website linkedin_url c).city = c.city ∧
       (mergeExistingCompany website linkedin_url c).company_size_category =
         c.company_size_category ∧
       (mergeExistingCompany website linkedin_url c).revenue_tier = c.revenue_tier ∧
       (mergeExistingCompany website linkedin_url c).industry_category = c.industry_category ∧
       (mergeExistingCompany website linkedin_url c).is_public = c.is_public ∧
       (mergeExistingCompany website linkedin_url c).ipo_ticker = c.ipo_ticker ∧
       (mergeExistingCompany website linkedin_url c).ipo_exchange = c.ipo_exchange) := by
  constructor
  · intro pe_firm_id db r c db2 hfind hok
    rw [process_update_branch pe_firm_id db r c hfind] at hok
    exact addInvestment_companies _ _ _ _ _ _ hok
  · intro website linkedin_url c
    unfold mergeExistingCompany
    cases hw : (website == "") <;>
      cases hl : (!(linkedin_url == "") && !(pyTruthy c.linkedin_url)) <;>
        simp [hw, hl]

/-- Claim C3 (amended, witness): the update path of the concrete re-import
rewrites the Airbnb row through mergeExistingCompany. -/
theorem import_update_merge_semantics_witness :
    processedDB.companies = updateFirst (fun x => x.name == recNewWebsite.name)
      (mergeExistingCompany (pyStrip (recNewWebsite.website.getD ""))
        (pyStrip (recNewWebsite.linkedin_url.getD ""))) dbWithInvestment.companies :=
  import_update_merge_semantics.1 1 dbWithInvestment recNewWebsite oldCompany processedDB
    rfl rfl
